import Mathlib

/-!
Verification of the transport layer and buffering core of the hot-shots
StatsD client (`lib/transport.js`, `lib/constants.js`, and the buffering /
failure-recovery engine specified in `spec.md`).

The JavaScript source is shallowly embedded: the `send` of each transport is a
pure function from an explicit environment (socket state, write outcome,
DNS results) to the list of payloads written and the list of callback
invocations it performs.  Asynchronous completion callbacks supplied by the
Node runtime (a socket write callback, a `dgram` send callback) are modelled
by the standard runtime contract: the runtime invokes each such continuation
exactly once, with the error or with a null/absent error value.
-/

namespace HotShots

/-- A JavaScript `Error` value as the transport code observes it: an
optional `code` string, an optional `message`, and an optional numeric
`errno`.  (`lib/transport.js` only ever reads these three fields.) -/
structure JsError where
  code : Option String
  message : Option String
  errno : Option Int
deriving DecidableEq, Repr

/-- The argument of one callback invocation: `none` models a call with a
null/absent error (success), `some e` a call reporting error `e`. -/
abbrev CallbackArg := Option JsError

/-- `addEol` from `lib/transport.js`: appends a newline to a non-empty
message that does not already end in one; empty messages are unchanged.
Strings are modelled as lists of characters. -/
def addEol (buf : List Char) : List Char :=
  if buf.length > 0 ∧ buf.getLast? ≠ some '\n' then buf ++ ['\n'] else buf

/-- The error fabricated by the TCP transport when `socket.destroyed` is
already set at `send` time (`lib/transport.js`, issue #247 guard). -/
def socketDestroyedError : JsError :=
  { code := some "ERR_SOCKET_DESTROYED", message := some "Socket is destroyed", errno := none }

/-- The error fabricated by the stream transport when `stream.destroyed` is
already set at `send` time (`lib/transport.js`, issue #247 guard). -/
def streamDestroyedError : JsError :=
  { code := some "ERR_STREAM_DESTROYED", message := some "Stream is destroyed", errno := none }

/-- The outcome of one `send` call: the payloads actually written to the
underlying sink, in order, and the callback invocations performed, in
order. -/
structure SendOutcome where
  writes : List (List Char)
  calls : List CallbackArg
deriving DecidableEq, Repr

/-- Environment of a TCP (or stream) `send`: whether the sink is already
destroyed, and the result the runtime passes to the write callback
(invoked exactly once per accepted write). -/
structure WriteEnv where
  destroyed : Bool
  writeResult : Option JsError
deriving DecidableEq, Repr

/-- `createTcpTransport(...).send` from `lib/transport.js`, with a callback
supplied: if the socket is destroyed, no write happens and the callback gets
`ERR_SOCKET_DESTROYED`; otherwise `addEol buf` is written and the write
result of the write callback is forwarded to the callback of the caller. -/
def tcpSend (env : WriteEnv) (buf : List Char) : SendOutcome :=
  if env.destroyed then
    { writes := [], calls := [some socketDestroyedError] }
  else
    { writes := [addEol buf], calls := [env.writeResult] }

/-- `createStreamTransport(...).send` from `lib/transport.js`, with a
callback supplied: identical structure to the TCP send, but the fabricated
error carries `ERR_STREAM_DESTROYED`. -/
def streamSend (env : WriteEnv) (buf : List Char) : SendOutcome :=
  if env.destroyed then
    { writes := [], calls := [some streamDestroyedError] }
  else
    { writes := [addEol buf], calls := [env.writeResult] }

/-- `createMockTransport().send` from `lib/transport.js`: writes nothing and
immediately invokes the callback with a null error (and the byte count,
which the error argument does not carry). -/
def mockSend (_buf : List Char) : SendOutcome :=
  { writes := [], calls := [none] }

/-- Behaviour of the underlying `dgram` `socket.send`: it either throws a
synchronous exception or invokes its completion callback exactly once with
an optional error. -/
inductive SocketSendBehavior where
  | throws (e : JsError)
  | callsBack (r : Option JsError)
deriving DecidableEq, Repr

/-- `sendToSocket` from `lib/transport.js` (UDP transport, DNS-cache path),
with a callback supplied: a synchronous exception from `socket.send` is
caught and delivered to the callback; otherwise the socket-callback
result is forwarded.  The datagram is written (attempted) only when no
exception is thrown. -/
def sendToSocket (sock : SocketSendBehavior) (buf : List Char) : SendOutcome :=
  match sock with
  | .throws e => { writes := [], calls := [some e] }
  | .callsBack r => { writes := [buf], calls := [r] }

/-- The direct (no DNS cache) path of `createUdpTransport(...).send` from
`lib/transport.js`, with a callback supplied: same try/catch structure as
`sendToSocket`. -/
def udpSendDirect (sock : SocketSendBehavior) (buf : List Char) : SendOutcome :=
  match sock with
  | .throws e => { writes := [], calls := [some e] }
  | .callsBack r => { writes := [buf], calls := [r] }

/-- The DNS resolution cache of the UDP transport (`dnsResolutionData` in
`lib/transport.js`): a timestamp and the last resolved address, initially
`new Date(0)` / `undefined`. -/
structure DnsCacheState where
  timestamp : Int
  resolvedAddress : Option String
deriving DecidableEq, Repr

/-- Environment of a cached-DNS UDP send: the configured host, the result of
`net.isIP(host)` (0 when the host is not an IP literal), the cache TTL, the
current clock value, the outcome `dns.lookup` would deliver, and the
behaviour of the underlying `socket.send`. -/
structure UdpCacheEnv where
  host : String
  hostIpVersion : Nat
  cacheDnsTtl : Int
  now : Int
  dnsLookup : Except JsError String
  sock : SocketSendBehavior
deriving Repr

/-- `sendUsingDnsCache` from `lib/transport.js`, with a callback supplied:
refreshes the cache on a miss or TTL expiry (taking the IP fast path when
the host is a literal address), reports a DNS failure straight to the
callback, and otherwise hands the datagram to `sendToSocket`. -/
def sendUsingDnsCache (env : UdpCacheEnv) (st : DnsCacheState) (buf : List Char) :
    SendOutcome × DnsCacheState :=
  if st.resolvedAddress = none ∨ env.now - st.timestamp > env.cacheDnsTtl then
    if env.hostIpVersion ≠ 0 then
      (sendToSocket env.sock buf, { timestamp := env.now, resolvedAddress := some env.host })
    else
      match env.dnsLookup with
      | .error e => ({ writes := [], calls := [some e] }, st)
      | .ok addr => (sendToSocket env.sock buf, { timestamp := env.now, resolvedAddress := some addr })
  else
    (sendToSocket env.sock buf, st)

/-- `createUdpTransport(...).send` from `lib/transport.js`, with a callback
supplied: dispatches to the DNS-cache path when `cacheDns` is set, otherwise
to the direct try/catch send. -/
def udpSend (cacheDns : Bool) (env : UdpCacheEnv) (st : DnsCacheState) (buf : List Char) :
    SendOutcome × DnsCacheState :=
  if cacheDns then sendUsingDnsCache env st buf
  else (udpSendDirect env.sock buf, st)

/-- The retry tuning of the UDS transport after defaulting
(`maxRetries`, `initialDelayMs`, `maxDelayMs`, `backoffFactor` in
`lib/transport.js`). -/
structure UdsRetryConfig where
  maxRetries : Nat
  initialDelayMs : Nat
  maxDelayMs : Nat
  backoffFactor : Nat
deriving DecidableEq, Repr

/-- The caller-supplied `udsRetryOptions`: each field is `none` when the
option is absent (`undefined`) or `null` in JavaScript. -/
structure UdsRetryOptions where
  retries : Option Nat
  retryDelayMs : Option Nat
  maxRetryDelayMs : Option Nat
  backoffFactor : Option Nat
deriving DecidableEq, Repr

/-- The defaulting of the UDS retry options (`lib/transport.js` lines
265-268): `x === undefined || x === null ? default : x` for each field. -/
def resolveUdsRetryConfig (udsOpts : UdsRetryOptions) : UdsRetryConfig :=
  { maxRetries := udsOpts.retries.getD 3
    initialDelayMs := udsOpts.retryDelayMs.getD 100
    maxDelayMs := udsOpts.maxRetryDelayMs.getD 1000
    backoffFactor := udsOpts.backoffFactor.getD 2 }

/-- `isEagain` from `lib/transport.js`: the `code` of the error is the string
`EAGAIN`, or its numeric `errno` equals the OS `EAGAIN` constant (when that
constant is available — `os.constants.errno.EAGAIN` is modelled as an
`Option Int`). -/
def isEagain (eagainConst : Option Int) (err : JsError) : Bool :=
  if err.code == some "EAGAIN" then true
  else
    match err.errno, eagainConst with
    | some n, some c => n == c
    | _, _ => false

/-- `isCongestion` from `lib/transport.js`: the `code` or `message` of the error
is the string `congestion`, or its `errno` is the sentinel 1. -/
def isCongestion (err : JsError) : Bool :=
  if err.code == some "congestion" || err.message == some "congestion" then true
  else err.errno == some 1

/-- `isRetryableUdsError` from `lib/transport.js`. -/
def isRetryableUdsError (eagainConst : Option Int) (err : JsError) : Bool :=
  isEagain eagainConst err || isCongestion err

/-- The backoff delay taken before retry number `attempt + 1`
(`Math.min(initialDelayMs * Math.pow(backoffFactor, attempt), maxDelayMs)`
in `lib/transport.js`). -/
def retryDelay (cfg : UdsRetryConfig) (attempt : Nat) : Nat :=
  min (cfg.initialDelayMs * cfg.backoffFactor ^ attempt) cfg.maxDelayMs

/-- The observable trace of one UDS `send`: the backoff delays slept, in
order, and the caller-callback invocations performed, in order. -/
structure SendRun where
  delays : List Nat
  calls : List CallbackArg
deriving DecidableEq, Repr

/-- `sendWithRetry` from `lib/transport.js`, with a callback supplied.  The
outcome the socket reports for attempt number `n` (counted from 0) is given
by the oracle `outcomes n` (`none` = success).  A retryable error with
retries remaining schedules a backoff delay and recurses; any other result
invokes the caller callback with the error (or with the null success
value). -/
def sendWithRetry (cfg : UdsRetryConfig) (eagainConst : Option Int)
    (outcomes : Nat → Option JsError) (attempt : Nat) : SendRun :=
  match outcomes attempt with
  | some err =>
    if h : isRetryableUdsError eagainConst err = true ∧ attempt < cfg.maxRetries then
      let rest := sendWithRetry cfg eagainConst outcomes (attempt + 1)
      { delays := retryDelay cfg attempt :: rest.delays, calls := rest.calls }
    else
      { delays := [], calls := [some err] }
  | none => { delays := [], calls := [none] }
termination_by cfg.maxRetries - attempt
decreasing_by simp_wf; omega

/-- `createUdsTransport(...).unref` from `lib/transport.js`: always throws. -/
def udsUnref : Except String Unit :=
  .error "unix-dgram does not implement unref for sockets"

/-- `createStreamTransport(...).unref` from `lib/transport.js`: always
throws. -/
def streamUnref : Except String Unit :=
  .error "stream transport does not support unref"

/-- `createUdpTransport(...).unref`: delegates to the dgram socket method
`unref`, which returns normally. -/
def udpUnref : Except String Unit := .ok ()

/-- `createTcpTransport(...).unref`: delegates to the net socket method
`unref`, which returns normally. -/
def tcpUnref : Except String Unit := .ok ()

/-- `createMockTransport().unref`: a logging no-op. -/
def mockUnref : Except String Unit := .ok ()

/-- The protocol tag the factory stamps on a successfully created
transport. -/
inductive TransportKind where
  | mock | tcp | uds | udp | stream
deriving DecidableEq, Repr

/-- Environment of one call to the transport factory (`module.exports` in
`lib/transport.js`): the mock flag, the requested protocol string (`none`
when absent/falsy, in which case UDP is used), whether the `stream` option
was supplied, whether `require` of the optional `unix-dgram` dependency
succeeds, whether `socket.connect` on the UDS path throws, and whether the
client instance has a configured `errorHandler`. -/
structure FactoryEnv where
  mock : Bool
  protocol : Option String
  hasStream : Bool
  udsAvailable : Bool
  udsConnectError : Option JsError
  hasErrorHandler : Bool
deriving DecidableEq, Repr

/-- Result of the factory: the created transport (or `none` when creation
failed) and how many times the error handler and `console.error` were
invoked. -/
structure FactoryResult where
  transport : Option TransportKind
  errorHandlerCalls : Nat
  consoleErrorCalls : Nat
deriving DecidableEq, Repr

/-- The protocol-dispatch `try` block of the factory: which transport is
constructed, or which construction error is thrown.  `createUdsTransport`
throws when `unix-dgram` is unavailable or when connecting to the socket
path fails; `createStreamTransport` asserts that a `stream` option is
present; an unrecognized protocol string throws `Unsupported protocol`. -/
def attemptCreate (env : FactoryEnv) : Except String TransportKind :=
  let protocol := env.protocol.getD "udp"
  if env.mock then .ok .mock
  else if protocol == "tcp" then .ok .tcp
  else if protocol == "uds" then
    if env.udsAvailable then
      match env.udsConnectError with
      | some _ => .error "uds connect failed"
      | none => .ok .uds
    else
      .error "unix-dgram dependency is not installed"
  else if protocol == "udp" then .ok .udp
  else if protocol == "stream" then
    if env.hasStream then .ok .stream else .error "stream option required"
  else
    .error "unsupported protocol"

/-- `module.exports` of `lib/transport.js`: runs `attemptCreate` once (there
is no retry loop); a thrown construction error is caught and reported a
single time, to the instance error handler when one is configured,
otherwise via `console.error`, and the factory returns `null`. -/
def createTransport (env : FactoryEnv) : FactoryResult :=
  match attemptCreate env with
  | .ok t => { transport := some t, errorHandlerCalls := 0, consoleErrorCalls := 0 }
  | .error _ =>
      { transport := none
        errorHandlerCalls := if env.hasErrorHandler then 1 else 0
        consoleErrorCalls := if env.hasErrorHandler then 0 else 1 }

/-- Modelled from the spec: the `enqueue` operation of the Buffer/Flush Engine
(§3 and §4.1 of the spec).  The engine lives in `lib/statsd.js`, which is
not among the provided source files (only its tests are), so this follows
the wording of the spec: each enqueued line is followed by the newline separator;
if the grown buffer would exceed the maximum, the existing non-empty buffer
is flushed first and a new buffer starts with the new line; a line that
alone (with its separator) exceeds the maximum is sent standalone and never
held in the buffer.  Returns the new buffer contents and the payloads sent,
in order. -/
def enqueue (maxBufferSize : Nat) (buffer : List Char) (line : List Char) :
    List Char × List (List Char) :=
  let msg := line ++ ['\n']
  if buffer.length + msg.length > maxBufferSize then
    let flushed := if buffer.isEmpty then [] else [buffer]
    if msg.length > maxBufferSize then
      ([], flushed ++ [msg])
    else
      (msg, flushed)
  else
    (buffer ++ msg, [])

/-- The error categories of the Failure-Recovery Controller (spec §3,
"Error Classification Record"). -/
inductive ErrorCategory where
  | retryableCongestion | badConnection | badDescriptor | fatal | unknown
deriving DecidableEq, Repr

/-- One live transport handle: an identity plus the `createdAt` timestamp
that `lib/transport.js` stamps on every transport it creates (line 492). -/
structure TransportHandle where
  id : Nat
  createdAt : Int
deriving DecidableEq, Repr

/-- Result of handling one asynchronous transport error: the (possibly
replaced) handle and the number of error-handler notifications made. -/
structure RecoveryOutcome where
  handle : TransportHandle
  errorHandlerCalls : Nat
deriving DecidableEq, Repr

/-- Whether a classified error triggers the replace-or-rate-limit policy:
the bad-connection and bad-descriptor categories (spec §4.3). -/
def isBadError (cat : ErrorCategory) : Bool :=
  cat == .badConnection || cat == .badDescriptor

/-- Modelled from the spec: the reaction of the Failure-Recovery Controller to
one asynchronous transport error (spec §4.3).  The controller lives in
`lib/statsd.js`, which is not among the provided source files, so this
follows the wording of the spec: with graceful error handling enabled, a
bad-connection or bad-descriptor error replaces the transport handle with a
freshly created one exactly when the elapsed time since the current
handle was created exceeds the rate-limit window; in every case the error is
reported once to the error handler. -/
def onTransportError (graceful : Bool) (rateLimitMs : Int)
    (handle : TransportHandle) (cat : ErrorCategory) (now : Int) : RecoveryOutcome :=
  if graceful = true ∧ isBadError cat = true ∧ now - handle.createdAt > rateLimitMs then
    { handle := { id := handle.id + 1, createdAt := now }, errorHandlerCalls := 1 }
  else
    { handle := handle, errorHandlerCalls := 1 }

/-- Number of newline characters at the end of a message (used to compare
the observed write against the claim that exactly one trailing newline is
present). -/
def trailingNewlineCount (s : List Char) : Nat :=
  (s.reverse.takeWhile (· == '\n')).length

end HotShots

namespace HotShots

/-- C1: with buffering enabled, after any enqueue the pending buffer holds
at most `maxBufferSize` bytes; an enqueue whose line would overflow the
buffer first flushes the existing non-empty buffered content (it is the
first payload sent), and a line that alone exceeds the maximum is sent
standalone while the buffer stays empty. -/
theorem buffer_enqueue_never_exceeds_max (maxBufferSize : Nat) (buffer line : List Char)
    (_hmax : 0 < maxBufferSize) :
    ((enqueue maxBufferSize buffer line).1).length ≤ maxBufferSize
    ∧ (buffer.length + (line.length + 1) > maxBufferSize → buffer ≠ [] →
        (enqueue maxBufferSize buffer line).2.head? = some buffer)
    ∧ (line.length + 1 > maxBufferSize →
        (enqueue maxBufferSize buffer line).1 = []
        ∧ line ++ ['\n'] ∈ (enqueue maxBufferSize buffer line).2) := by
  simp only [enqueue, List.length_append, List.length_cons, List.length_nil]
  refine ⟨?_, ?_, ?_⟩
  · split_ifs <;> simp_all [List.isEmpty_iff]
  · intro hover hne
    split_ifs <;> simp_all [List.isEmpty_iff]
  · intro hline
    split_ifs <;> simp_all [List.isEmpty_iff]
    omega

/-- C1 witness for `buffer_enqueue_never_exceeds_max` at a concrete
maximum, buffer, and line. -/
theorem buffer_enqueue_never_exceeds_max_witness :
    0 < 8
    ∧ (((enqueue 8 ['a'] ['b']).1).length ≤ 8
      ∧ ((['a'] : List Char).length + ((['b'] : List Char).length + 1) > 8 →
          (['a'] : List Char) ≠ [] →
          (enqueue 8 ['a'] ['b']).2.head? = some ['a'])
      ∧ ((['b'] : List Char).length + 1 > 8 →
          (enqueue 8 ['a'] ['b']).1 = []
          ∧ ['b'] ++ ['\n'] ∈ (enqueue 8 ['a'] ['b']).2)) :=
  ⟨by decide, buffer_enqueue_never_exceeds_max 8 ['a'] ['b'] (by decide)⟩

/-- C3: with graceful error handling enabled, a bad-connection or
bad-descriptor error replaces the transport handle with a freshly created
one (new identity, creation time reset to now) exactly when the elapsed
time since the current handle was created exceeds the rate-limit window; an
earlier error leaves the same handle in place; either way the error is
reported to the error handler exactly once. -/
theorem recovery_replaces_iff_window_elapsed (rateLimitMs : Int)
    (handle : TransportHandle) (cat : ErrorCategory) (now : Int)
    (hcat : isBadError cat = true) :
    ((onTransportError true rateLimitMs handle cat now).handle ≠ handle
      ↔ now - handle.createdAt > rateLimitMs)
    ∧ (now - handle.createdAt > rateLimitMs →
        (onTransportError true rateLimitMs handle cat now).handle
          = { id := handle.id + 1, createdAt := now })
    ∧ (¬ now - handle.createdAt > rateLimitMs →
        (onTransportError true rateLimitMs handle cat now).handle = handle)
    ∧ (onTransportError true rateLimitMs handle cat now).errorHandlerCalls = 1 := by
  unfold onTransportError
  split_ifs with h
  · obtain ⟨-, -, helapsed⟩ := h
    refine ⟨⟨fun _ => helapsed, fun _ heq => ?_⟩, fun _ => rfl,
      fun hcon => absurd helapsed hcon, rfl⟩
    have hid := congrArg TransportHandle.id heq
    simp at hid
  · have helapsed : ¬ now - handle.createdAt > rateLimitMs :=
      fun hcon => h ⟨rfl, hcat, hcon⟩
    exact ⟨⟨fun hne => absurd rfl hne, fun hcon => absurd hcon helapsed⟩,
      fun hcon => absurd hcon helapsed, fun _ => rfl, rfl⟩

/-- C3 witness for `recovery_replaces_iff_window_elapsed` at a concrete
window, handle, category, and clock. -/
theorem recovery_replaces_iff_window_elapsed_witness :
    isBadError .badDescriptor = true
    ∧ (((onTransportError true 1000 { id := 0, createdAt := 0 } .badDescriptor 2000).handle
          ≠ { id := 0, createdAt := 0 }
        ↔ (2000 : Int) - ({ id := 0, createdAt := 0 } : TransportHandle).createdAt > 1000)
      ∧ ((2000 : Int) - ({ id := 0, createdAt := 0 } : TransportHandle).createdAt > 1000 →
          (onTransportError true 1000 { id := 0, createdAt := 0 } .badDescriptor 2000).handle
            = { id := 0 + 1, createdAt := 2000 })
      ∧ (¬ (2000 : Int) - ({ id := 0, createdAt := 0 } : TransportHandle).createdAt > 1000 →
          (onTransportError true 1000 { id := 0, createdAt := 0 } .badDescriptor 2000).handle
            = { id := 0, createdAt := 0 })
      ∧ (onTransportError true 1000 { id := 0, createdAt := 0 } .badDescriptor 2000).errorHandlerCalls
          = 1) :=
  ⟨by decide, recovery_replaces_iff_window_elapsed 1000 { id := 0, createdAt := 0 }
    .badDescriptor 2000 (by decide)⟩

/-- C5 counterexample: the payload `"a\n\n"` is non-empty, yet the TCP
transport writes it unchanged with two trailing newlines, not exactly
one (`addEol` only appends to a payload that does not already end in a
newline; it never collapses existing newlines). -/
theorem addEol_two_trailing_newlines_counterexample :
    (tcpSend { destroyed := false, writeResult := none } ['a', '\n', '\n']).writes
      = [['a', '\n', '\n']]
    ∧ trailingNewlineCount ['a', '\n', '\n'] = 2
    ∧ trailingNewlineCount (addEol ['a', '\n', '\n']) ≠ 1 := by
  decide

/-- C5 (amended): for the TCP and stream transports every payload is
written as `addEol` of the payload; a non-empty payload is written ending
with at least one trailing newline, a newline being appended exactly when
the payload does not already end with one, and an empty payload is written
unchanged as a zero-length string with no newline appended. -/
theorem tcp_stream_send_newline_handling (env : WriteEnv) (buf : List Char)
    (hdest : env.destroyed = false) :
    (tcpSend env buf).writes = [addEol buf]
    ∧ (streamSend env buf).writes = [addEol buf]
    ∧ (buf ≠ [] → (addEol buf).getLast? = some '\n')
    ∧ (buf.getLast? = some '\n' → addEol buf = buf)
    ∧ (buf ≠ [] → buf.getLast? ≠ some '\n' → addEol buf = buf ++ ['\n'])
    ∧ addEol [] = [] := by
  refine ⟨by simp [tcpSend, hdest], by simp [streamSend, hdest], ?_, ?_, ?_, rfl⟩
  · intro hne
    unfold addEol
    split_ifs with h
    · simp
    · push_neg at h
      exact h (List.length_pos.mpr hne)
  · intro hlast
    unfold addEol
    split_ifs with h
    · exact absurd hlast h.2
    · rfl
  · intro hne hlast
    unfold addEol
    rw [if_pos ⟨List.length_pos.mpr hne, hlast⟩]

/-- C5 witness for `tcp_stream_send_newline_handling` at a concrete
environment and payload. -/
theorem tcp_stream_send_newline_handling_witness :
    ({ destroyed := false, writeResult := none } : WriteEnv).destroyed = false
    ∧ ((tcpSend { destroyed := false, writeResult := none } ['a']).writes = [addEol ['a']]
      ∧ (streamSend { destroyed := false, writeResult := none } ['a']).writes = [addEol ['a']]
      ∧ ((['a'] : List Char) ≠ [] → (addEol ['a']).getLast? = some '\n')
      ∧ ((['a'] : List Char).getLast? = some '\n' → addEol ['a'] = ['a'])
      ∧ ((['a'] : List Char) ≠ [] → (['a'] : List Char).getLast? ≠ some '\n' →
          addEol ['a'] = ['a'] ++ ['\n'])
      ∧ addEol [] = []) :=
  ⟨rfl, tcp_stream_send_newline_handling { destroyed := false, writeResult := none } ['a'] rfl⟩

/-- C7: an unsupported protocol name, a missing `stream` option for the
stream transport, and an unavailable `unix-dgram` dependency for the UDS
transport each make the single construction attempt throw; the factory
catches the error, reports it exactly once — via the configured error
handler, or to the console when none is configured — and yields no
transport (`null`).  (`createTransport` runs `attemptCreate` once and
contains no retry loop.) -/
theorem factory_construction_errors_reported_once (env : FactoryEnv)
    (hmock : env.mock = false) :
    ((env.protocol.getD "udp") ∉ (["tcp", "uds", "udp", "stream"] : List String) →
        attemptCreate env = .error "unsupported protocol")
    ∧ (env.protocol.getD "udp" = "stream" → env.hasStream = false →
        attemptCreate env = .error "stream option required")
    ∧ (env.protocol.getD "udp" = "uds" → env.udsAvailable = false →
        attemptCreate env = .error "unix-dgram dependency is not installed")
    ∧ (∀ msg : String, attemptCreate env = .error msg →
        (createTransport env).transport = none
        ∧ (createTransport env).errorHandlerCalls + (createTransport env).consoleErrorCalls = 1
        ∧ (env.hasErrorHandler = true → (createTransport env).errorHandlerCalls = 1
            ∧ (createTransport env).consoleErrorCalls = 0)
        ∧ (env.hasErrorHandler = false → (createTransport env).consoleErrorCalls = 1
            ∧ (createTransport env).errorHandlerCalls = 0)) := by
  refine ⟨?_, ?_, ?_, ?_⟩
  · intro hnot
    simp only [List.mem_cons, List.not_mem_nil, or_false, not_or] at hnot
    obtain ⟨h1, h2, h3, h4⟩ := hnot
    unfold attemptCreate
    simp [hmock, h1, h2, h3, h4]
  · intro hp hs
    unfold attemptCreate
    simp [hmock, hp, hs]
  · intro hp hu
    unfold attemptCreate
    simp [hmock, hp, hu]
  · intro msg herr
    unfold createTransport
    rw [herr]
    cases hh : env.hasErrorHandler <;> simp [hh]

/-- C7 witness for `factory_construction_errors_reported_once` at a
concrete environment requesting an unsupported protocol with an error
handler configured. -/
theorem factory_construction_errors_reported_once_witness :
    ({ mock := false, protocol := some "gopher", hasStream := false, udsAvailable := true,
        udsConnectError := none, hasErrorHandler := true } : FactoryEnv).mock = false
    ∧ (createTransport
        { mock := false, protocol := some "gopher", hasStream := false, udsAvailable := true,
          udsConnectError := none, hasErrorHandler := true }).transport = none
    ∧ (createTransport
        { mock := false, protocol := some "gopher", hasStream := false, udsAvailable := true,
          udsConnectError := none, hasErrorHandler := true }).errorHandlerCalls = 1 := by
  refine ⟨rfl, ?_⟩
  have h := (factory_construction_errors_reported_once
    { mock := false, protocol := some "gopher", hasStream := false, udsAvailable := true,
      udsConnectError := none, hasErrorHandler := true } rfl)
  have herr := h.1 (by decide)
  have hmain := h.2.2.2 "unsupported protocol" herr
  exact ⟨hmain.1, (hmain.2.2.1 rfl).1⟩

/-- Both constructor cases of the dgram socket behaviour lead to exactly
one callback invocation from `sendToSocket`. -/
theorem sendToSocket_calls_length_one (sock : SocketSendBehavior) (buf : List Char) :
    (sendToSocket sock buf).calls.length = 1 := by
  cases sock <;> rfl

/-- Both constructor cases of the dgram socket behaviour lead to exactly
one callback invocation from the direct UDP send path. -/
theorem udpSendDirect_calls_length_one (sock : SocketSendBehavior) (buf : List Char) :
    (udpSendDirect sock buf).calls.length = 1 := by
  cases sock <;> rfl

/-- Every UDS send run, whatever outcomes the socket reports, performs
exactly one caller-callback invocation. -/
theorem sendWithRetry_calls_length_one (cfg : UdsRetryConfig) (eagainConst : Option Int)
    (outcomes : Nat → Option JsError) (attempt : Nat) :
    (sendWithRetry cfg eagainConst outcomes attempt).calls.length = 1 := by
  have H : ∀ (n a : Nat), cfg.maxRetries - a ≤ n →
      (sendWithRetry cfg eagainConst outcomes a).calls.length = 1 := by
    intro n
    induction n with
    | zero =>
      intro a hle
      rw [sendWithRetry]
      split
      · split
        · rename_i h
          exact absurd h.2 (by omega)
        · rfl
      · rfl
    | succ n ih =>
      intro a hle
      rw [sendWithRetry]
      split
      · split
        · simpa using ih (a + 1) (by omega)
        · rfl
      · rfl
  exact H (cfg.maxRetries - attempt) attempt le_rfl

/-- Unfolding of `sendWithRetry` on a retryable error with retries left:
a backoff delay is scheduled and the send is re-attempted. -/
theorem sendWithRetry_retry_step (cfg : UdsRetryConfig) (eagainConst : Option Int)
    (outcomes : Nat → Option JsError) (a : Nat) (err : JsError)
    (hout : outcomes a = some err)
    (hr : isRetryableUdsError eagainConst err = true) (hlt : a < cfg.maxRetries) :
    sendWithRetry cfg eagainConst outcomes a =
      { delays := retryDelay cfg a :: (sendWithRetry cfg eagainConst outcomes (a + 1)).delays
        calls := (sendWithRetry cfg eagainConst outcomes (a + 1)).calls } := by
  conv_lhs => rw [sendWithRetry]
  rw [hout]
  exact dif_pos ⟨hr, hlt⟩

/-- Unfolding of `sendWithRetry` when it gives up: a non-retryable error,
or a retryable one with the retry budget exhausted, is reported to the
callback with no further attempt. -/
theorem sendWithRetry_stop (cfg : UdsRetryConfig) (eagainConst : Option Int)
    (outcomes : Nat → Option JsError) (a : Nat) (err : JsError)
    (hout : outcomes a = some err)
    (hno : ¬(isRetryableUdsError eagainConst err = true ∧ a < cfg.maxRetries)) :
    sendWithRetry cfg eagainConst outcomes a = { delays := [], calls := [some err] } := by
  conv_lhs => rw [sendWithRetry]
  rw [hout]
  exact dif_neg hno

/-- The UDS retryable-error classification, spelled out. -/
theorem isRetryableUdsError_iff (eagainConst : Option Int) (err : JsError) :
    isRetryableUdsError eagainConst err = true ↔
      (err.code = some "EAGAIN"
        ∨ (∃ n : Int, err.errno = some n ∧ eagainConst = some n)
        ∨ err.code = some "congestion"
        ∨ err.message = some "congestion"
        ∨ err.errno = some 1) := by
  obtain ⟨code, message, errno⟩ := err
  unfold isRetryableUdsError isEagain isCongestion
  cases errno <;> cases eagainConst <;>
    simp [beq_iff_eq] <;> tauto

/-- C2: the UDS `send` retries a retryable error (code `EAGAIN`, errno
equal to the OS `EAGAIN` constant, code or message `congestion`, or
errno 1) after a delay of
`min(initialDelayMs * backoffFactor ^ attempt, maxDelayMs)` while fewer
than `maxRetries` attempts have been used; once the budget is exhausted the
last error is reported via the callback; a non-retryable error is reported
immediately with no further attempt. -/
theorem uds_send_retry_policy (cfg : UdsRetryConfig) (eagainConst : Option Int)
    (outcomes : Nat → Option JsError) (attempt : Nat) (err : JsError)
    (hout : outcomes attempt = some err) :
    (isRetryableUdsError eagainConst err = true → attempt < cfg.maxRetries →
      sendWithRetry cfg eagainConst outcomes attempt =
        { delays := min (cfg.initialDelayMs * cfg.backoffFactor ^ attempt) cfg.maxDelayMs
            :: (sendWithRetry cfg eagainConst outcomes (attempt + 1)).delays
          calls := (sendWithRetry cfg eagainConst outcomes (attempt + 1)).calls })
    ∧ (isRetryableUdsError eagainConst err = true → cfg.maxRetries ≤ attempt →
      sendWithRetry cfg eagainConst outcomes attempt = { delays := [], calls := [some err] })
    ∧ (isRetryableUdsError eagainConst err = false →
      sendWithRetry cfg eagainConst outcomes attempt = { delays := [], calls := [some err] })
    ∧ (isRetryableUdsError eagainConst err = true ↔
        (err.code = some "EAGAIN"
          ∨ (∃ n : Int, err.errno = some n ∧ eagainConst = some n)
          ∨ err.code = some "congestion"
          ∨ err.message = some "congestion"
          ∨ err.errno = some 1)) := by
  refine ⟨?_, ?_, ?_, isRetryableUdsError_iff eagainConst err⟩
  · intro hr hlt
    exact sendWithRetry_retry_step cfg eagainConst outcomes attempt err hout hr hlt
  · intro hr hge
    exact sendWithRetry_stop cfg eagainConst outcomes attempt err hout
      (fun hc => absurd hc.2 (by omega))
  · intro hr
    exact sendWithRetry_stop cfg eagainConst outcomes attempt err hout
      (fun hc => by rw [hr] at hc; exact Bool.false_ne_true hc.1)

/-- A concrete congestion error, as `unix-dgram` reports it. -/
def congestionError : JsError :=
  { code := some "congestion", message := some "congestion", errno := none }

/-- C2 witness for `uds_send_retry_policy`: with the default retry
configuration and a socket that always reports congestion, the first
attempt schedules a 100 ms backoff and re-attempts. -/
theorem uds_send_retry_policy_witness :
    (fun _ : Nat => some congestionError) 0 = some congestionError
    ∧ sendWithRetry { maxRetries := 3, initialDelayMs := 100, maxDelayMs := 1000, backoffFactor := 2 }
        none (fun _ => some congestionError) 0 =
      { delays := min (100 * 2 ^ 0) 1000
          :: (sendWithRetry { maxRetries := 3, initialDelayMs := 100, maxDelayMs := 1000, backoffFactor := 2 }
              none (fun _ => some congestionError) (0 + 1)).delays
        calls := (sendWithRetry { maxRetries := 3, initialDelayMs := 100, maxDelayMs := 1000, backoffFactor := 2 }
            none (fun _ => some congestionError) (0 + 1)).calls } :=
  ⟨rfl,
    (uds_send_retry_policy
      { maxRetries := 3, initialDelayMs := 100, maxDelayMs := 1000, backoffFactor := 2 }
      none (fun _ => some congestionError) 0 congestionError rfl).1
      (by decide) (by decide)⟩

/-- C4: for every transport variant and every `send` with a callback
supplied, the callback is invoked exactly once — never zero times, never
twice — with a null/absent error on success and with the error on
failure. -/
theorem send_callback_invoked_exactly_once :
    (∀ (env : WriteEnv) (buf : List Char), (tcpSend env buf).calls.length = 1)
    ∧ (∀ (env : WriteEnv) (buf : List Char), (streamSend env buf).calls.length = 1)
    ∧ (∀ (cacheDns : Bool) (env : UdpCacheEnv) (st : DnsCacheState) (buf : List Char),
        ((udpSend cacheDns env st buf).1).calls.length = 1)
    ∧ (∀ (cfg : UdsRetryConfig) (eagainConst : Option Int)
        (outcomes : Nat → Option JsError) (attempt : Nat),
        (sendWithRetry cfg eagainConst outcomes attempt).calls.length = 1)
    ∧ (∀ buf : List Char, (mockSend buf).calls.length = 1)
    ∧ (∀ (w : Option JsError) (buf : List Char),
        (tcpSend { destroyed := false, writeResult := w } buf).calls = [w])
    ∧ (∀ (w : Option JsError) (buf : List Char),
        (streamSend { destroyed := false, writeResult := w } buf).calls = [w])
    ∧ (∀ (r : Option JsError) (buf : List Char),
        (udpSendDirect (.callsBack r) buf).calls = [r])
    ∧ (∀ buf : List Char, (mockSend buf).calls = [none]) := by
  refine ⟨?_, ?_, ?_, sendWithRetry_calls_length_one, fun _ => rfl,
    fun _ _ => rfl, fun _ _ => rfl, fun _ _ => rfl, fun _ => rfl⟩
  · intro env buf
    unfold tcpSend
    split_ifs <;> rfl
  · intro env buf
    unfold streamSend
    split_ifs <;> rfl
  · intro cacheDns env st buf
    unfold udpSend
    split_ifs with h1
    · unfold sendUsingDnsCache
      split_ifs with h2 h3
      · exact sendToSocket_calls_length_one env.sock buf
      · cases henv : env.dnsLookup with
        | error e => simp
        | ok addr => exact sendToSocket_calls_length_one env.sock buf
      · exact sendToSocket_calls_length_one env.sock buf
    · exact udpSendDirect_calls_length_one env.sock buf

/-- C6: when the underlying socket or stream is already destroyed, `send`
performs no write and invokes the callback with the fabricated descriptive
error — `ERR_SOCKET_DESTROYED` for TCP, `ERR_STREAM_DESTROYED` for
stream. -/
theorem destroyed_sink_fails_fast :
    (∀ (w : Option JsError) (buf : List Char),
      tcpSend { destroyed := true, writeResult := w } buf
        = { writes := [], calls := [some socketDestroyedError] })
    ∧ (∀ (w : Option JsError) (buf : List Char),
      streamSend { destroyed := true, writeResult := w } buf
        = { writes := [], calls := [some streamDestroyedError] })
    ∧ socketDestroyedError.code = some "ERR_SOCKET_DESTROYED"
    ∧ streamDestroyedError.code = some "ERR_STREAM_DESTROYED" :=
  ⟨fun _ _ => rfl, fun _ _ => rfl, rfl, rfl⟩

/-- C8: a synchronous exception thrown by the dgram `socket.send` is caught
by the UDP transport and delivered to the supplied callback as an error (on
both the direct path and the DNS-cache `sendToSocket` path), instead of
propagating out of `send`. -/
theorem udp_sync_exception_delivered_to_callback :
    (∀ (e : JsError) (buf : List Char),
      udpSendDirect (.throws e) buf = { writes := [], calls := [some e] })
    ∧ (∀ (e : JsError) (buf : List Char),
      sendToSocket (.throws e) buf = { writes := [], calls := [some e] }) :=
  ⟨fun _ _ => rfl, fun _ _ => rfl⟩

/-- C9: `unref` throws for the UDS and stream transports and returns
normally for the UDP, TCP, and mock transports. -/
theorem unref_support_by_variant :
    udsUnref.isOk = false
    ∧ streamUnref.isOk = false
    ∧ udpUnref.isOk = true
    ∧ tcpUnref.isOk = true
    ∧ mockUnref.isOk = true := by
  decide

/-- C10: each UDS retry-tuning option that is absent (`undefined`) or
`null` falls back to its fixed default — retries 3, initial delay 100 ms,
maximum delay 1000 ms, backoff factor 2 — while an explicitly supplied
value, including 0, is used as given. -/
theorem uds_retry_defaults :
    resolveUdsRetryConfig
        { retries := none, retryDelayMs := none,
          maxRetryDelayMs := none, backoffFactor := none }
      = { maxRetries := 3, initialDelayMs := 100, maxDelayMs := 1000, backoffFactor := 2 }
    ∧ (∀ a b c d : Nat,
        resolveUdsRetryConfig
            { retries := some a, retryDelayMs := some b,
              maxRetryDelayMs := some c, backoffFactor := some d }
          = { maxRetries := a, initialDelayMs := b, maxDelayMs := c, backoffFactor := d })
    ∧ resolveUdsRetryConfig
        { retries := some 0, retryDelayMs := some 0,
          maxRetryDelayMs := some 0, backoffFactor := some 0 }
      = { maxRetries := 0, initialDelayMs := 0, maxDelayMs := 0, backoffFactor := 0 } :=
  ⟨rfl, fun _ _ _ _ => rfl, rfl⟩

end HotShots
